import Mathlib

/-!
Shallow embedding of the `or` crate (`src/lib.rs`): a generic two-variant
sum type `Or<A, B>` with methods `is_a`, `is_b`, `a`, `b`, `as_ref`,
`as_mut`, `swap`, and the derived structural equality and ordering.

Modelling conventions:
  * Shared references (`&A`) are modelled by the payload value itself, so
    `as_ref : Or A B → Or A B` rebuilds the same shape over the payloads,
    exactly as the source's match does.
  * A mutable reference (`&mut A`) is modelled as the current payload value
    paired with a write-back function that produces the updated original;
    `as_mut` hands out that pair for whichever variant is active.
  * A method taking `&self` is additionally given a state-passing form
    returning (result, state of the receiver afterwards); the source body
    never writes through `self`, so the translated state is the input.
  * Possible runtime failure is modelled in `Except String`: each method
    body is re-translated arm by arm into the `Except` monad, where a
    failing arm would be `Except.error`; the source has no failing arm.
-/

namespace RustOr

/-- The enum `Or<A, B>` from `src/lib.rs`: variant `A` holding an `A`,
variant `B` holding a `B`. -/
inductive Or (A B : Type) where
| A : A → Or A B
| B : B → Or A B
deriving DecidableEq, Repr

variable {A B : Type}

/-- `Or::as_ref`: convert from `&Or<A, B>` to `Or<&A, &B>`; references are
modelled by the payload values, so the match rebuilds the same shape. -/
def Or.as_ref : Or A B → Or A B
  | .A a => .A a
  | .B b => .B b

/-- `Or::a`: converts `Or<A, B>` to `Option<A>`, discarding a `B` payload. -/
def Or.a : Or A B → Option A
  | .A a => some a
  | _ => none

/-- `Or::b`: converts `Or<A, B>` to `Option<B>`, discarding an `A` payload. -/
def Or.b : Or A B → Option B
  | .B b => some b
  | _ => none

/-- `Or::is_a`: `self.as_ref().a().is_some()`, kept as that exact chain. -/
def Or.is_a (v : Or A B) : Bool :=
  v.as_ref.a.isSome

/-- `Or::is_b`: `self.as_ref().b().is_some()`, kept as that exact chain. -/
def Or.is_b (v : Or A B) : Bool :=
  v.as_ref.b.isSome

/-- `Or::swap`: convert from `Or<A, B>` to `Or<B, A>`, exchanging the
variant roles while keeping the payload. -/
def Or.swap : Or A B → Or B A
  | .A b => .B b
  | .B a => .A a

/-- `Or::as_mut`: convert from `&mut Or<A, B>` to `Or<&mut A, &mut B>`.
A mutable reference into the payload is modelled as the payload value
paired with the write-back that rebuilds the original around a new
payload. -/
def Or.as_mut : Or A B → Or (A × (A → Or A B)) (B × (B → Or A B))
  | .A a => .A (a, fun a2 => .A a2)
  | .B b => .B (b, fun b2 => .B b2)

/-- State-passing form of `as_ref` for a `&self` method: the result view
together with the receiver's state after the call.  The source body is a
match that never writes through `self`. -/
def Or.as_ref_st (v : Or A B) : Or A B × Or A B :=
  (v.as_ref, v)

/-- The caller pattern `x.as_mut().a().map(|s| mutate(s))` from the
`as_mut` documentation example: project the mutable view to the `A` side
and, when present, write the mutated payload back; an absent `A` side
leaves the value untouched. -/
def Or.modify_a_via_as_mut (f : A → A) (v : Or A B) : Or A B :=
  match v.as_mut.a with
  | some (a, wb) => wb (f a)
  | none => v

/-- Derived `PartialEq`/`Eq` on the enum (`#[derive(PartialEq, Eq)]`):
equal variant tags and payloads comparing equal under the payload types'
own equality. -/
def Or.beq (ea : A → A → Bool) (eb : B → B → Bool) : Or A B → Or A B → Bool
  | .A x, .A y => ea x y
  | .B x, .B y => eb x y
  | _, _ => false

/-- Derived `PartialOrd`/`Ord` on the enum (`#[derive(PartialOrd, Ord)]`):
compare the variant tags in declaration order first (`A` before `B`), and
payloads by the payload types' own comparison within a variant. -/
def Or.cmp (ca : A → A → Ordering) (cb : B → B → Ordering) :
    Or A B → Or A B → Ordering
  | .A x, .A y => ca x y
  | .A _, .B _ => Ordering.lt
  | .B _, .A _ => Ordering.gt
  | .B x, .B y => cb x y

/-- Spec-side direct tag check for `is_a` ("true iff the active variant is
`A`"), written from the spec's words to compare against the borrowing-path
definition `Or.is_a` taken from the source. -/
def Or.is_a_tag_spec : Or A B → Bool
  | .A _ => true
  | .B _ => false

/-- Spec-side direct tag check for `is_b`, written from the spec's words. -/
def Or.is_b_tag_spec : Or A B → Bool
  | .A _ => false
  | .B _ => true

/-- `Or::a` with runtime failure made explicit: each match arm of the
source returns normally, translated to `Except.ok`. -/
def Or.aE : Or A B → Except String (Option A)
  | .A a => Except.ok (some a)
  | .B _ => Except.ok none

/-- `Or::b` with runtime failure made explicit. -/
def Or.bE : Or A B → Except String (Option B)
  | .B b => Except.ok (some b)
  | .A _ => Except.ok none

/-- `Or::as_ref` with runtime failure made explicit. -/
def Or.as_refE : Or A B → Except String (Or A B)
  | .A a => Except.ok (.A a)
  | .B b => Except.ok (.B b)

/-- `Or::as_mut` with runtime failure made explicit. -/
def Or.as_mutE :
    Or A B → Except String (Or (A × (A → Or A B)) (B × (B → Or A B)))
  | .A a => Except.ok (.A (a, fun a2 => .A a2))
  | .B b => Except.ok (.B (b, fun b2 => .B b2))

/-- `Or::swap` with runtime failure made explicit. -/
def Or.swapE : Or A B → Except String (Or B A)
  | .A b => Except.ok (.B b)
  | .B a => Except.ok (.A a)

/-- `Or::is_a` with runtime failure made explicit: the source chain
`self.as_ref().a().is_some()` sequenced in the `Except` monad. -/
def Or.is_aE (v : Or A B) : Except String Bool := do
  let r ← v.as_refE
  let o ← r.aE
  Except.ok o.isSome

/-- `Or::is_b` with runtime failure made explicit. -/
def Or.is_bE (v : Or A B) : Except String Bool := do
  let r ← v.as_refE
  let o ← r.bE
  Except.ok o.isSome

/-- Claim C1: for every value `a` of type `A`, the value `Or::A(a)`
satisfies `is_a() == true`, `is_b() == false`, `a() == Some(a)` and
`b() == None`; symmetrically, for every `b` of type `B`, `Or::B(b)`
satisfies `is_b() == true`, `is_a() == false`, `b() == Some(b)` and
`a() == None`. -/
theorem constructor_projections (A B : Type) (a : A) (b : B) :
    (Or.A a : Or A B).is_a = true ∧ (Or.A a : Or A B).is_b = false ∧
    (Or.A a : Or A B).a = some a ∧ (Or.A a : Or A B).b = none ∧
    (Or.B b : Or A B).is_b = true ∧ (Or.B b : Or A B).is_a = false ∧
    (Or.B b : Or A B).b = some b ∧ (Or.B b : Or A B).a = none := by
  refine ⟨rfl, rfl, rfl, rfl, rfl, rfl, rfl, rfl⟩

/-- Claim C2: `swap` exchanges the variant tags and preserves the payload:
`swap(A(a)) = B(a)` and `swap(B(b)) = A(b)`; in particular
`swap(A(73)).b() == Some(73)` at payload type `i32` (modelled by `Int`)
and unit second parameter. -/
theorem swap_on_constructors (A B : Type) (a : A) (b : B) :
    (Or.A a : Or A B).swap = Or.B a ∧ (Or.B b : Or A B).swap = Or.A b ∧
    (Or.A 73 : Or Int Unit).swap.b = some 73 := by
  refine ⟨rfl, rfl, rfl⟩

/-- Claim C3: `swap` is an involution: `swap(swap(v))` is structurally
equal to `v` for every `v : Or<A, B>`. -/
theorem swap_involution (A B : Type) (v : Or A B) :
    v.swap.swap = v := by
  cases v <;> rfl

/-- Claim C4: for every `v : Or<A, B>`, exactly one of `is_a(v)` and
`is_b(v)` is true: `is_b` is the boolean complement of `is_a`. -/
theorem is_a_is_b_exclusive (A B : Type) (v : Or A B) :
    v.is_b = !v.is_a ∧
    ((v.is_a = true ∧ v.is_b = false) ∨ (v.is_a = false ∧ v.is_b = true)) := by
  cases v with
  | A a => exact ⟨rfl, .inl ⟨rfl, rfl⟩⟩
  | B b => exact ⟨rfl, .inr ⟨rfl, rfl⟩⟩

/-- Claim C5: `is_a` is computed through the borrowing path
`as_ref().a().is_some()` and that definition agrees with a direct check of
the variant tag (true exactly when the value was built with the `A`
constructor); symmetrically for `is_b` via `as_ref().b().is_some()`. -/
theorem is_a_borrow_path_eq_tag_check (A B : Type) (v : Or A B) :
    v.is_a = v.as_ref.a.isSome ∧ v.is_b = v.as_ref.b.isSome ∧
    v.is_a = v.is_a_tag_spec ∧ v.is_b = v.is_b_tag_spec := by
  cases v <;> exact ⟨rfl, rfl, rfl, rfl⟩

/-- Claim C6: equality on `Or<A, B>` is structural — two values are equal
iff the variant tags match and the payloads are equal, so `A(1) != B(1)` —
and the derived ordering puts every `A` value before every `B` value while
within one variant it follows the payload ordering, instantiated at `Int`
payloads with `A(1) < A(2)` and `B(1) < B(2)`. -/
theorem structural_eq_and_derived_order (A B : Type)
    (ea : A → A → Bool) (eb : B → B → Bool)
    (ca : A → A → Ordering) (cb : B → B → Ordering)
    (x y : A) (z w : B) :
    Or.beq ea eb (Or.A x : Or A B) (Or.A y) = ea x y ∧
    Or.beq ea eb (Or.B z : Or A B) (Or.B w) = eb z w ∧
    Or.beq ea eb (Or.A x : Or A B) (Or.B z) = false ∧
    Or.cmp ca cb (Or.A x : Or A B) (Or.B z) = Ordering.lt ∧
    Or.cmp ca cb (Or.B z : Or A B) (Or.A x) = Ordering.gt ∧
    Or.cmp ca cb (Or.A x : Or A B) (Or.A y) = ca x y ∧
    Or.cmp ca cb (Or.B z : Or A B) (Or.B w) = cb z w ∧
    (∀ v w2 : Or Int Int,
      (Or.beq (fun p q => p == q) (fun p q => p == q) v w2 = true ↔ v = w2)) ∧
    Or.beq (fun p q => p == q) (fun p q => p == q)
      (Or.A 1 : Or Int Int) (Or.B 1) = false ∧
    Or.cmp compare compare (Or.A 1 : Or Int Int) (Or.A 2) = Ordering.lt ∧
    Or.cmp compare compare (Or.B 1 : Or Int Int) (Or.B 2) = Ordering.lt := by
  refine ⟨rfl, rfl, rfl, rfl, rfl, rfl, rfl, ?_, rfl, by decide, by decide⟩
  intro v w2
  cases v <;> cases w2 <;>
    simp [Or.beq, Or.A.injEq, Or.B.injEq]

/-- Claim C7: every operation (`is_a`, `is_b`, `a`, `b`, `as_ref`,
`as_mut`, `swap`) is total over the two-case tag: in the `Except`
translation, where a failing arm would produce an error value, every
operation returns `ok` of the pure result on every input. -/
theorem operations_total_no_failure (A B : Type) (v : Or A B) :
    v.is_aE = Except.ok v.is_a ∧ v.is_bE = Except.ok v.is_b ∧
    v.aE = Except.ok v.a ∧ v.bE = Except.ok v.b ∧
    v.as_refE = Except.ok v.as_ref ∧ v.as_mutE = Except.ok v.as_mut ∧
    v.swapE = Except.ok v.swap := by
  cases v <;> exact ⟨rfl, rfl, rfl, rfl, rfl, rfl, rfl⟩

/-- Claim C8: `as_ref` does not modify its receiver — in the state-passing
form the receiver's state after the call is the original value — and the
returned view is the same-shaped choice over the original's payload,
which in the value model of references means the view equals the original
value itself. -/
theorem as_ref_frame (A B : Type) (v : Or A B) :
    (v.as_ref_st).2 = v ∧ (v.as_ref_st).1 = v ∧ v.as_ref = v := by
  cases v <;> exact ⟨rfl, rfl, rfl⟩

/-- Claim C9: a mutation applied through the `as_mut` view is visible in
the original afterwards: for `v = A(s)`, applying `f` through
`as_mut().a()` and then reading via `as_ref().a()` yields `some (f s)`;
in particular appending " world!" to `A("hello")` reads back as
`some "hello world!"`. -/
theorem as_mut_mutation_visible (A B : Type) (s : A) (f : A → A) :
    ((Or.A s : Or A B).modify_a_via_as_mut f).as_ref.a = some (f s) ∧
    ((Or.A "hello" : Or String Unit).modify_a_via_as_mut
        (fun t => t ++ " world!")).as_ref.a = some "hello world!" := by
  exact ⟨rfl, rfl⟩

/-- Claim C10: for every value `v : Or<A, B>`, not only for fresh
constructor applications, `swap(v).a() == v.b()` and
`swap(v).b() == v.a()`. -/
theorem swap_projections (A B : Type) (v : Or A B) :
    v.swap.a = v.b ∧ v.swap.b = v.a := by
  cases v <;> exact ⟨rfl, rfl⟩

end RustOr
